import Mathlib

/-!
Verification of the Network Log Translator application (`src/app.py`).

The pure logic of the program is embedded shallowly below: Python strings
become Lean `String`s (with keyword containment computed over `List Char`),
Python dicts that are iterated in insertion order become association lists,
and the single fallible external chat-completion call becomes an explicit
`ApiOutcome` parameter.  The Streamlit "Analyze Error" handler becomes a
pure function from the submitted input, the selected language, the outcome
of the external call and the current session history to the resulting
history, the user-visible messages and the request that was (or was not)
issued.
-/

namespace NetLog

/-- Python's per-character `str.lower()` restricted to basic latin letters,
applied to a whole string (`text.lower()` in `app.py`). -/
def lowerList (s : List Char) : List Char := s.map Char.toLower

/-- Python's substring test `kw in text`: `containsKw kw t` is `true` iff
`kw` occurs contiguously inside `t`. -/
def containsKw (kw : List Char) : List Char → Bool
  | [] => kw.isEmpty
  | c :: rest => kw.isPrefixOf (c :: rest) || containsKw kw rest

/-- Python's `str.strip()`: whitespace removed from both ends. -/
def strip (s : List Char) : List Char :=
  ((s.dropWhile Char.isWhitespace).reverse.dropWhile Char.isWhitespace).reverse

/-- Python dict `.get(key, default)` over an association list (dicts in
`app.py` are iterated in insertion order). -/
def dict_get (d : List (String × String)) (key default : String) : String :=
  match d.find? (fun p => p.1 == key) with
  | some p => p.2
  | none => default

/-- The DNS keyword group of `classify_error` (`app.py` line 124). -/
def dns_kws : List (List Char) := ["dns".data, "domain".data, "server".data]

/-- The SSL keyword group of `classify_error` (`app.py` line 125). -/
def ssl_kws : List (List Char) := ["ssl".data, "certificate".data, "handshake".data]

/-- The Connection keyword group of `classify_error` (`app.py` line 126). -/
def conn_kws : List (List Char) := ["connection".data, "timeout".data, "refused".data, "route".data]

/-- The `error_types` dict of `classify_error` (`app.py` lines 123-127),
in insertion order: DNS, then SSL, then Connection. -/
def error_types : List (String × List (List Char)) :=
  [("DNS", dns_kws), ("SSL", ssl_kws), ("Connection", conn_kws)]

/-- `any(kw in text_lower for kw in keywords)` (`app.py` line 130). -/
def anyKw (kws : List (List Char)) (text_lower : List Char) : Bool :=
  kws.any (fun kw => containsKw kw text_lower)

/-- `classify_error` (`app.py` lines 122-132): lower-case the text, return
the first category in `error_types` one of whose keywords occurs as a
substring, and "Network" when none does. -/
def classify_error (text : String) : String :=
  let text_lower := lowerList text.data
  match error_types.find? (fun p => anyKw p.2 text_lower) with
  | some p => p.1
  | none => "Network"

/-- `get_severity` (`app.py` lines 135-140).  The checks run in source
order: "critical", then "warning", then "severe". -/
def get_severity (text : String) : String :=
  let text_lower := lowerList text.data
  if containsKw "critical".data text_lower then "Critical"
  else if containsKw "warning".data text_lower then "Warning"
  else if containsKw "severe".data text_lower then "Critical"
  else "Info"

/-- `LANGUAGE_CODES` (`app.py` lines 106-111), in insertion order. -/
def LANGUAGE_CODES : List (String × String) :=
  [("English", "en-US"), ("Urdu", "ur-PK"), ("Spanish", "es-ES"),
   ("French", "fr-FR"), ("Arabic", "ar-SA"), ("Afrikaans", "af-ZA"),
   ("Zulu", "zu-ZA"), ("Xhosa", "xh-ZA"), ("Sotho", "st-ZA"),
   ("Tswana", "tn-ZA")]

/-- The language-code lookup of `translator_page` (`app.py` lines 283-286):
`next((v[:2] for k, v in LANGUAGE_CODES.items() if
k.lower().startswith(selected_lang[:2].lower())), 'en')`. -/
def lang_lookup (selected_lang : String) : String :=
  match LANGUAGE_CODES.find? (fun p =>
      (lowerList (selected_lang.data.take 2)).isPrefixOf (lowerList p.1.data)) with
  | some p => String.mk (p.2.data.take 2)
  | none => "en"

/-- The `system_prompts` dict of `generate_explanation`
(`app.py` lines 145-156). -/
def system_prompts : List (String × String) :=
  [("en", "You are a network troubleshooting assistant in English."),
   ("es", "Eres un asistente de solución de problemas de red en español."),
   ("fr", "Vous êtes un assistant de dépannage réseau en français."),
   ("ur", "آپ اردو میں نیٹ ورک ٹروبل شوٹنگ اسسٹنٹ ہیں۔"),
   ("ar", "أنت مساعد استكشاف أخطاء الشبكة باللغة العربية."),
   ("af", "Jy is \x27n netwerk-probleemoplossingsassistent in Afrikaans."),
   ("zu", "Ungusizo lokuxazulula amaproblem emseth-network ngesiZulu."),
   ("xh", "Ungomnxeba wokusungula amaproblem emanyango ekuqhubekeni ngesiXhosa."),
   ("st", "O moagi wa bothata ba network ka Sesotho."),
   ("tn", "O thutapulamolemo ya network ka Setswana.")]

/-- The system message `generate_explanation` sends (`app.py` line 161):
`f"{system_prompts.get(language, 'en')} Provide detailed analysis and
step-by-step solutions."`.  Note the dict-lookup default is the literal
string "en". -/
def system_message (language : String) : String :=
  dict_get system_prompts language "en" ++ " Provide detailed analysis and step-by-step solutions."

/-- Outcome of the one external chat-completion call: either a returned
content string or a raised exception with its message. -/
inductive ApiOutcome where
  | ok (content : String)
  | exn (msg : String)
deriving DecidableEq

/-- The try/except result of `generate_explanation` (`app.py` lines
158-170): the returned content on success; on any exception an
"API Error: ..." message is shown and `None` is returned. -/
def generate_explanation (outcome : ApiOutcome) : Option String × List String :=
  match outcome with
  | .ok content => (some content, [])
  | .exn e => (none, ["API Error: " ++ e])

/-- One history entry (`app.py` lines 298-303). -/
structure Entry where
  error : String
  explanation : String
  category : String
  severity : String
deriving DecidableEq

/-- `st.session_state.history.append(...)` (`app.py` line 298). -/
def record (history : List Entry) (e : Entry) : List Entry := history ++ [e]

/-- The "Recent Analyses" display order (`app.py` line 331):
`reversed(st.session_state.history[-3:])`. -/
def recent_display (history : List Entry) : List Entry :=
  (history.drop (history.length - 3)).reverse

/-- `QUICK_FIXES` (`app.py` lines 315-320). -/
def QUICK_FIXES : List (String × String) :=
  [("DNS", "ipconfig /flushdns"),
   ("SSL", "sudo update-ca-certificates"),
   ("Connection", "ping 8.8.8.8"),
   ("Network", "netsh winsock reset")]

/-- Result of one press of "Analyze Error": the new history, the
user-visible messages emitted, the (system, user) message pair of the
chat-completion request when one was issued, and the explanation value. -/
structure StepResult where
  history : List Entry
  messages : List String
  api_request : Option (String × String)
  explanation : Option String
deriving DecidableEq

/-- The "Analyze Error" handler of `translator_page` (`app.py` lines
276-303): reject blank input with a warning and no API call; otherwise
derive the language code, issue the chat-completion request, and on a
falsy explanation (exception, hence `None`, or an empty string) show
"Failed to generate explanation" and leave the history unchanged, else
classify, grade severity and append one entry to the history. -/
def run_analysis (input_text selected_lang : String) (outcome : ApiOutcome)
    (history : List Entry) : StepResult :=
  if strip input_text.data = [] then
    { history := history, messages := ["Please enter error details"],
      api_request := none, explanation := none }
  else
    let lang_code := lang_lookup selected_lang
    let req := (system_message lang_code, "Analyze this network error: " ++ input_text)
    match generate_explanation outcome with
    | (none, msgs) =>
      { history := history, messages := msgs ++ ["Failed to generate explanation"],
        api_request := some req, explanation := none }
    | (some expl, msgs) =>
      if expl = "" then
        { history := history, messages := msgs ++ ["Failed to generate explanation"],
          api_request := some req, explanation := some expl }
      else
        { history := record history
            { error := input_text, explanation := expl,
              category := classify_error expl, severity := get_severity expl },
          messages := msgs, api_request := some req, explanation := some expl }

/-- `classify_error` behaves as the ordered cascade DNS, SSL, Connection,
with "Network" as the default: shared characterisation lemma. -/
theorem classify_error_eq_ite (text : String) :
    classify_error text =
      if anyKw dns_kws (lowerList text.data) then "DNS"
      else if anyKw ssl_kws (lowerList text.data) then "SSL"
      else if anyKw conn_kws (lowerList text.data) then "Connection"
      else "Network" := by
  simp only [classify_error, error_types, List.find?]
  cases h1 : anyKw dns_kws (lowerList text.data) <;>
    cases h2 : anyKw ssl_kws (lowerList text.data) <;>
      cases h3 : anyKw conn_kws (lowerList text.data) <;>
        simp [h1, h2, h3]

/-- C1 counterexample: "severe warning" contains "severe" (case-insensitive)
but `get_severity` returns "Warning", not "Critical", because the source
checks "warning" before "severe". -/
theorem C1_counterexample :
    containsKw "severe".data (lowerList "severe warning".data) = true ∧
    get_severity "severe warning" ≠ "Critical" := by decide

/-- C1 (amended): a text containing "critical" (case-insensitive) gets
severity "Critical" even when it also contains "warning"; a text containing
"severe" gets "Critical" only when it does not also contain "warning",
because `get_severity` checks "critical", then "warning", then "severe". -/
theorem C1_severity_amended (text : String)
    (h : containsKw "critical".data (lowerList text.data) = true ∨
         (containsKw "severe".data (lowerList text.data) = true ∧
          containsKw "warning".data (lowerList text.data) = false)) :
    get_severity text = "Critical" := by
  unfold get_severity
  rcases h with h | ⟨hs, hw⟩
  · simp [h]
  · cases hc : containsKw "critical".data (lowerList text.data) <;> simp [hc, hw, hs]

/-- Witness for C1 (amended) at the concrete inputs "critical warning"
and "a severe failure". -/
theorem C1_severity_witness :
    get_severity "critical warning" = "Critical" ∧ get_severity "a severe failure" = "Critical" :=
  ⟨C1_severity_amended "critical warning" (Or.inl (by decide)),
   C1_severity_amended "a severe failure" (Or.inr ⟨by decide, by decide⟩)⟩

/-- C2: for a language code absent from `system_prompts` the system message
is built from the literal dict-lookup default "en", not from the English
system prompt, so the message sent is
"en Provide detailed analysis and step-by-step solutions.". -/
theorem C2_fallback_is_literal_en :
    (system_prompts.all (fun p => !(p.1 == "de"))) = true ∧
    system_message "de" = "en Provide detailed analysis and step-by-step solutions." ∧
    system_message "de" ≠
      "You are a network troubleshooting assistant in English. Provide detailed analysis and step-by-step solutions." := by
  refine ⟨by decide, by decide, by decide⟩

/-- C3: `classify_error` checks the keyword groups in the fixed order DNS,
SSL, Connection, returns the first category one of whose keywords occurs in
the lower-cased text, and returns "Network" when no keyword of any group
occurs; in particular a text containing a DNS keyword and no SSL or
Connection keyword is classified "DNS", and analogously for SSL and
Connection. -/
theorem C3_keyword_order (text : String) :
    classify_error text =
      (if anyKw dns_kws (lowerList text.data) then "DNS"
       else if anyKw ssl_kws (lowerList text.data) then "SSL"
       else if anyKw conn_kws (lowerList text.data) then "Connection"
       else "Network") ∧
    (anyKw dns_kws (lowerList text.data) = true ∧
     anyKw ssl_kws (lowerList text.data) = false ∧
     anyKw conn_kws (lowerList text.data) = false →
       classify_error text = "DNS") ∧
    (anyKw ssl_kws (lowerList text.data) = true ∧
     anyKw dns_kws (lowerList text.data) = false ∧
     anyKw conn_kws (lowerList text.data) = false →
       classify_error text = "SSL") ∧
    (anyKw conn_kws (lowerList text.data) = true ∧
     anyKw dns_kws (lowerList text.data) = false ∧
     anyKw ssl_kws (lowerList text.data) = false →
       classify_error text = "Connection") ∧
    (anyKw dns_kws (lowerList text.data) = false ∧
     anyKw ssl_kws (lowerList text.data) = false ∧
     anyKw conn_kws (lowerList text.data) = false →
       classify_error text = "Network") := by
  have h := classify_error_eq_ite text
  refine ⟨h, ?_, ?_, ?_, ?_⟩ <;> rintro ⟨ha, hb, hc⟩ <;> rw [h] <;> simp [ha, hb, hc]

/-- Witness for C3 at the concrete input "dns lookup failed". -/
theorem C3_keyword_order_witness : classify_error "dns lookup failed" = "DNS" :=
  (C3_keyword_order "dns lookup failed").2.1 ⟨by decide, by decide, by decide⟩

/-- C4: when the chat-completion call raises, `generate_explanation`
returns `none`, the handler shows "Failed to generate explanation", and the
session history is exactly what it was before the request. -/
theorem C4_api_failure (input_text selected_lang e : String) (history : List Entry)
    (h : ¬ strip input_text.data = []) :
    (generate_explanation (ApiOutcome.exn e)).1 = none ∧
    "Failed to generate explanation" ∈
      (run_analysis input_text selected_lang (ApiOutcome.exn e) history).messages ∧
    (run_analysis input_text selected_lang (ApiOutcome.exn e) history).explanation = none ∧
    (run_analysis input_text selected_lang (ApiOutcome.exn e) history).history = history := by
  refine ⟨rfl, ?_, ?_, ?_⟩ <;> simp [run_analysis, generate_explanation, h]

/-- Witness for C4 at concrete inputs. -/
theorem C4_api_failure_witness :
    (generate_explanation (ApiOutcome.exn "boom")).1 = none ∧
    "Failed to generate explanation" ∈
      (run_analysis "connection refused" "English" (ApiOutcome.exn "boom") []).messages ∧
    (run_analysis "connection refused" "English" (ApiOutcome.exn "boom") []).explanation = none ∧
    (run_analysis "connection refused" "English" (ApiOutcome.exn "boom") []).history = [] :=
  C4_api_failure "connection refused" "English" "boom" [] (by decide)

/-- C5: when the submitted input text is blank after stripping (so in
particular when it is empty), the handler issues no chat-completion
request, warns "Please enter error details", and leaves the session
history unchanged. -/
theorem C5_empty_input (input_text selected_lang : String) (outcome : ApiOutcome)
    (history : List Entry) (h : strip input_text.data = []) :
    (run_analysis input_text selected_lang outcome history).api_request = none ∧
    (run_analysis input_text selected_lang outcome history).messages =
      ["Please enter error details"] ∧
    (run_analysis input_text selected_lang outcome history).history = history := by
  refine ⟨?_, ?_, ?_⟩ <;> simp [run_analysis, h]

/-- Witness for C5 at the empty input. -/
theorem C5_empty_input_witness :
    (run_analysis "" "English" (ApiOutcome.ok "x") []).api_request = none ∧
    (run_analysis "" "English" (ApiOutcome.ok "x") []).messages =
      ["Please enter error details"] ∧
    (run_analysis "" "English" (ApiOutcome.ok "x") []).history = [] :=
  C5_empty_input "" "English" (ApiOutcome.ok "x") [] (by decide)

/-- C6 counterexample: "Frisian" is not a supported display name, yet the
lookup returns "fr" (its first two letters prefix-match "French"), not
"en". -/
theorem C6_counterexample :
    (LANGUAGE_CODES.all (fun p => !(p.1 == "Frisian"))) = true ∧
    lang_lookup "Frisian" = "fr" ∧
    lang_lookup "Frisian" ≠ "en" := by decide

/-- C6 (amended): the lookup returns "en" for the empty display name and
for any name whose lower-cased first two characters prefix-match no
supported display name; every supported display language resolves to
exactly the first two characters of its own BCP-47 tag. -/
theorem C6_lang_lookup_amended :
    lang_lookup "" = "en" ∧
    (∀ s : String,
      (LANGUAGE_CODES.all (fun p =>
        !((lowerList (s.data.take 2)).isPrefixOf (lowerList p.1.data)))) = true →
      lang_lookup s = "en") ∧
    (LANGUAGE_CODES.all (fun p => lang_lookup p.1 == String.mk (p.2.data.take 2))) = true := by
  refine ⟨by decide, ?_, by decide⟩
  intro s hs
  have hnone : LANGUAGE_CODES.find? (fun p =>
      (lowerList (s.data.take 2)).isPrefixOf (lowerList p.1.data)) = none := by
    rw [List.find?_eq_none]
    intro p hp
    have h2 := List.all_eq_true.mp hs p hp
    simp only [Bool.not_eq_true'] at h2
    simp [h2]
  unfold lang_lookup
  rw [hnone]

/-- Witness for C6 (amended) at the concrete name "Quechua", which
prefix-matches no supported display name. -/
theorem C6_lang_lookup_witness : lang_lookup "Quechua" = "en" :=
  C6_lang_lookup_amended.2.1 "Quechua" (by decide)

/-- C7: the history preserves insertion order (each analysis appends one
entry at the end), and after five insertions the recent-analyses display
shows exactly entries 3, 4 and 5, most recent first. -/
theorem C7_history_order (e1 e2 e3 e4 e5 : Entry) :
    record (record (record (record (record [] e1) e2) e3) e4) e5 = [e1, e2, e3, e4, e5] ∧
    recent_display (record (record (record (record (record [] e1) e2) e3) e4) e5) =
      [e5, e4, e3] := by
  constructor <;> rfl

/-- C8: the input "Connection Refused" is classified "Connection", and the
quick-fix table maps "Connection" to "ping 8.8.8.8". -/
theorem C8_connection_refused :
    classify_error "Connection Refused" = "Connection" ∧
    QUICK_FIXES.find? (fun p => p.1 == "Connection") =
      some ("Connection", "ping 8.8.8.8") := by decide

/-- C9: `classify_error` always returns one of "DNS", "SSL", "Connection",
"Network", and each of these is a key of `QUICK_FIXES`, so the quick-fix
lookup guard always succeeds. -/
theorem C9_quick_fix_total (text : String) :
    (classify_error text = "DNS" ∨ classify_error text = "SSL" ∨
     classify_error text = "Connection" ∨ classify_error text = "Network") ∧
    (QUICK_FIXES.find? (fun p => p.1 == classify_error text)).isSome = true := by
  have h := classify_error_eq_ite text
  cases h1 : anyKw dns_kws (lowerList text.data) <;>
    cases h2 : anyKw ssl_kws (lowerList text.data) <;>
      cases h3 : anyKw conn_kws (lowerList text.data) <;>
        simp only [h1, h2, h3, if_true, if_false] at h <;>
          rw [h] <;> decide

/-- C10: for every display language in `LANGUAGE_CODES`, the two-letter
code produced by the lookup is a key of `system_prompts`, so the
prompt-table fallback branch is never taken for a language selectable in
the UI. -/
theorem C10_prompts_cover_languages :
    (LANGUAGE_CODES.all (fun p =>
      (system_prompts.find? (fun q => q.1 == lang_lookup p.1)).isSome)) = true := by decide

end NetLog
